import Mathlib

/-!
Verification of the asynchronous task submission/poll protocol and
response-normalization pipeline of the Job-posting Notification Agent
repository (a Next.js template talking to the Lyzr agent inference API).

Shallow embedding strategy:
* JavaScript runtime values are modelled by the inductive type `JsVal`.
  Numbers are restricted to the integral values the program's logic
  distinguishes (truthiness and stringification); `NaN` gets its own
  constructor because it is falsy and stringifies to "NaN".
* The pure functions (`normalizeResponse`, `detectResponseIssue`, the
  backoff formula) are translated directly from the source.
* Effectful code (`callAIAgent`'s submit/poll loop, the server route
  handlers `submitTask` / `pollTask`) is translated into pure functions
  over an explicit environment describing the outcome of every network
  step; a step that throws is represented as data (`StepResult.exn`,
  `Except.error`), mirroring the fact that the source catches all
  exceptions and returns them as values.
* JS built-ins whose innards the repository does not contain
  (`JSON.parse`, `JSON.stringify`, `parseLLMJson` from the external
  Loose JSON Extractor, `fetchWrapper`) are oracles supplied by the
  environment; no claim depends on their concrete behaviour.
-/

set_option linter.unusedVariables false

namespace JobAgent

/-- JavaScript runtime values, as far as the normalization pipeline
distinguishes them.  `num` covers the integral numbers exercised by the
code's truthiness / stringification logic; `nan` is separate because it is
falsy and has `typeof` number. -/
inductive JsVal where
  | null
  | undefined
  | bool (b : Bool)
  | num (n : Int)
  | nan
  | str (s : String)
  | arr (elems : List JsVal)
  | obj (fields : List (String × JsVal))

/-- Lookup of an own property in an object's field list (first match). -/
def lookupKey : List (String × JsVal) → String → Option JsVal
  | [], _ => none
  | (k', v) :: rest, k => if k' = k then some v else lookupKey rest k

/-- Property read `v.k` returning `none` when the key is absent or the
value is not an object. -/
def getField? : JsVal → String → Option JsVal
  | .obj fields, k => lookupKey fields k
  | _, _ => none

/-- Property read `v.k`; an absent property reads as `undefined`, as in JS. -/
def getField (v : JsVal) (k : String) : JsVal :=
  (getField? v k).getD .undefined

/-- The JS `'k' in v` test (for the non-prototype keys the source probes). -/
def hasKey (v : JsVal) (k : String) : Bool :=
  (getField? v k).isSome

/-- JS truthiness. -/
def truthy : JsVal → Bool
  | .null => false
  | .undefined => false
  | .bool b => b
  | .num n => n != 0
  | .nan => false
  | .str s => s != ""
  | .arr _ => true
  | .obj _ => true

/-- The test `typeof v === 'string'`. -/
def isString : JsVal → Bool
  | .str _ => true
  | _ => false

/-- The test `typeof v === 'object'` (true for objects, arrays and null). -/
def typeofObject : JsVal → Bool
  | .obj _ => true
  | .arr _ => true
  | .null => true
  | _ => false

/-- JS nullish test (`null` or `undefined`), used by the `??` operator. -/
def nullish : JsVal → Bool
  | .null => true
  | .undefined => true
  | _ => false

/-- The JS nullish-coalescing operator `a ?? b`. -/
def jsNullish (a b : JsVal) : JsVal :=
  if nullish a then b else a

/-- The JS logical-or operator `a || b` (value-returning, truthiness based). -/
def jsOr (a b : JsVal) : JsVal :=
  if truthy a then a else b

/-- Strict equality `v === "s"` against a string literal. -/
def jsStrictEqStr (v : JsVal) (s : String) : Bool :=
  match v with
  | .str t => t == s
  | _ => false

/-- Strict equality `v === b` against a boolean literal. -/
def jsStrictEqBool (v : JsVal) (b : Bool) : Bool :=
  match v with
  | .bool c => c == b
  | _ => false

/-- Strict equality `v === null`. -/
def jsStrictNull : JsVal → Bool
  | .null => true
  | _ => false

/-- The JS test `v.length > n` (strings and arrays have a length; on any
other value `undefined > n` is false). -/
def jsLenGt (v : JsVal) (n : Nat) : Bool :=
  match v with
  | .str s => n < s.length
  | .arr xs => n < xs.length
  | _ => false

/-- Field list with the given keys removed (object rest-destructuring
`const { status, message, metadata, ...rest } = parsed`). -/
def removeKeys (fields : List (String × JsVal)) (ks : List String) : List (String × JsVal) :=
  fields.filter (fun p => !(ks.contains p.1))

/-- Rest-destructuring of an object value; only reached on objects in the
source (the `'status' in parsed` guard precedes it). -/
def objRest (v : JsVal) (ks : List String) : JsVal :=
  match v with
  | .obj fields => .obj (removeKeys fields ks)
  | _ => .obj []

/-- Number of own keys (`Object.keys(v).length`). -/
def numKeys : JsVal → Nat
  | .obj fields => fields.length
  | _ => 0

mutual
/-- JS `String(v)` / template-literal stringification. -/
def jsToString : JsVal → String
  | .null => "null"
  | .undefined => "undefined"
  | .bool b => cond b "true" "false"
  | .num n => toString n
  | .nan => "NaN"
  | .str s => s
  | .arr xs => arrToString xs
  | .obj _ => "[object Object]"

/-- `Array.prototype.toString`: elements joined with commas, with `null`
and `undefined` elements rendered as the empty string. -/
def arrToString : List JsVal → String
  | [] => ""
  | x :: xs =>
    (match x with
     | .null => ""
     | .undefined => ""
     | v => jsToString v)
    ++ (match xs with
        | [] => ""
        | _ => "," ++ arrToString xs)
end

theorem lookupKey_sizeOf {fs : List (String × JsVal)} {k : String} {v : JsVal}
    (h : lookupKey fs k = some v) : sizeOf v < sizeOf fs := by
  induction fs with
  | nil => simp [lookupKey] at h
  | cons p rest ih =>
    obtain ⟨k', v'⟩ := p
    rw [lookupKey] at h
    by_cases hk : k' = k
    · simp [hk] at h
      subst h
      simp
      omega
    · simp [hk] at h
      have := ih h
      simp
      omega

theorem getField_sizeOf {v : JsVal} {k : String}
    (h : hasKey v k = true) : sizeOf (getField v k) < sizeOf v := by
  cases v with
  | obj fs =>
    simp only [hasKey, getField?] at h
    simp only [getField, getField?]
    cases hl : lookupKey fs k with
    | none => simp [hl] at h
    | some w =>
      have := lookupKey_sizeOf hl
      simp [hl]
      omega
  | null => simp [hasKey, getField?] at h
  | undefined => simp [hasKey, getField?] at h
  | bool b => simp [hasKey, getField?] at h
  | num n => simp [hasKey, getField?] at h
  | nan => simp [hasKey, getField?] at h
  | str s => simp [hasKey, getField?] at h
  | arr xs => simp [hasKey, getField?] at h

/-- The stable Normalized Response record (`NormalizedAgentResponse` in the
source).  `message` and `metadata` are arbitrary runtime values because the
source passes them through verbatim in the status/result case (absence
reads as `undefined`). -/
structure NormResp where
  status : String
  result : JsVal
  message : JsVal
  metadata : JsVal

/-- The TS object literal a `NormalizedAgentResponse` becomes when it is
serialized / fed back into the pipeline. -/
def toJsVal (r : NormResp) : JsVal :=
  .obj [("status", .str r.status), ("result", r.result),
        ("message", r.message), ("metadata", r.metadata)]

/-- Translation of `normalizeResponse` (route (4).ts).  The nine cascading
cases of the source are mirrored in order; the recursive case 8 follows the
`response` field. -/
def normalizeResponse (parsed : JsVal) : NormResp :=
  -- case 1: `if (!parsed)`
  if truthy parsed = false then
    ⟨"error", .obj [], .str "Empty response from agent", .undefined⟩
  -- case 2: `typeof parsed === 'string'`
  else if isString parsed then
    ⟨"success", .obj [("text", parsed)], parsed, .undefined⟩
  -- case 3: `typeof parsed !== 'object'`
  else if typeofObject parsed = false then
    ⟨"success", .obj [("value", parsed)], .str (jsToString parsed), .undefined⟩
  -- case 4: `'status' in parsed && 'result' in parsed`
  else if hasKey parsed "status" && hasKey parsed "result" then
    ⟨if jsStrictEqStr (getField parsed "status") "error" then "error" else "success",
     jsOr (getField parsed "result") (.obj []),
     getField parsed "message",
     getField parsed "metadata"⟩
  -- case 5: `'status' in parsed`
  else if hasKey parsed "status" then
    ⟨if jsStrictEqStr (getField parsed "status") "error" then "error" else "success",
     if numKeys (objRest parsed ["status", "message", "metadata"]) > 0 then
       objRest parsed ["status", "message", "metadata"]
     else .obj [],
     getField parsed "message",
     getField parsed "metadata"⟩
  -- case 6: `'result' in parsed`
  else if hasKey parsed "result" then
    let r := getField parsed "result"
    let msg :=
      jsNullish (getField parsed "message")
        (jsNullish (if isString r then r else .null)
          (if truthy r && typeofObject r then
            jsNullish (getField r "text")
              (jsNullish (getField r "message")
                (jsNullish (getField r "response")
                  (jsNullish (getField r "answer")
                    (jsNullish (getField r "summary") (getField r "content")))))
           else .null))
    ⟨"success",
     if isString r then .obj [("text", r)] else jsOr r (.obj []),
     if isString msg then msg else .undefined,
     getField parsed "metadata"⟩
  -- case 7: `'message' in parsed && typeof parsed.message === 'string'`
  else if hasKey parsed "message" && isString (getField parsed "message") then
    ⟨"success", .obj [("text", getField parsed "message")],
     getField parsed "message", .undefined⟩
  -- case 8: `'response' in parsed` (recursive)
  else if _h : hasKey parsed "response" then
    normalizeResponse (getField parsed "response")
  -- case 9: fallback
  else
    ⟨"success", parsed, .undefined, .undefined⟩
termination_by sizeOf parsed
decreasing_by exact getField_sizeOf _h

/-- Exact characterization of the `status = "error"` outcomes of
`normalizeResponse`, read off branch by branch: a falsy candidate, an
object whose dispatch reaches a `status` field strictly equal to
`"error"`, or (for objects with none of `status`/`result`/string
`message`) a `response` field that recursively yields an error. -/
def statusIsError (c : JsVal) : Bool :=
  if truthy c = false then true
  else if isString c then false
  else if typeofObject c = false then false
  else if hasKey c "status" then jsStrictEqStr (getField c "status") "error"
  else if hasKey c "result" then false
  else if hasKey c "message" && isString (getField c "message") then false
  else if _h : hasKey c "response" then statusIsError (getField c "response")
  else false
termination_by sizeOf c
decreasing_by exact getField_sizeOf _h

/-- The error condition as the claim states it: the candidate is
empty/absent (read as JS-falsy, the reading most charitable to the claim)
or is an object carrying a `status` field that is literally `"error"`. -/
def specC1Error (c : JsVal) : Bool :=
  !truthy c || (hasKey c "status" && jsStrictEqStr (getField c "status") "error")

theorem truthy_obj (fs : List (String × JsVal)) : truthy (.obj fs) = true := rfl

theorem truthy_jsOr (a b : JsVal) (hb : truthy b = true) :
    truthy (jsOr a b) = true := by
  unfold jsOr
  split_ifs with h
  · exact h
  · exact hb

theorem truthy_objRest (v : JsVal) (ks : List String) :
    truthy (objRest v ks) = true := by
  unfold objRest
  cases v <;> rfl

theorem truthy_restOrEmpty (v : JsVal) (ks : List String) (p : Prop) [Decidable p] :
    truthy (if p then objRest v ks else .obj []) = true := by
  split_ifs with h
  · exact truthy_objRest v ks
  · rfl

theorem normalizeResponse_inv_aux :
    ∀ n c, sizeOf c ≤ n →
      ((normalizeResponse c).status = "success" ∨ (normalizeResponse c).status = "error") ∧
        truthy (normalizeResponse c).result = true := by
  intro n
  induction n with
  | zero => intro c h; cases c <;> simp at h
  | succ n ih =>
    intro c hc
    rw [normalizeResponse.eq_def]
    cases h1 : truthy c with
    | false => simp [h1, truthy]
    | true =>
    cases h2 : isString c with
    | true => simp [h1, h2, truthy]
    | false =>
    cases h3 : typeofObject c with
    | false => simp [h1, h2, h3, truthy]
    | true =>
    cases h4 : hasKey c "status" with
    | true =>
      cases h5 : hasKey c "result" with
      | true =>
        cases he : jsStrictEqStr (getField c "status") "error" with
        | true => simp [h1, h2, h3, h4, h5, he, truthy_jsOr _ (.obj []) rfl]
        | false => simp [h1, h2, h3, h4, h5, he, truthy_jsOr _ (.obj []) rfl]
      | false =>
        cases he : jsStrictEqStr (getField c "status") "error" with
        | true => simp [h1, h2, h3, h4, h5, he, truthy_restOrEmpty]
        | false => simp [h1, h2, h3, h4, h5, he, truthy_restOrEmpty]
    | false =>
    cases h6 : hasKey c "result" with
    | true =>
      cases hs : isString (getField c "result") with
      | true => simp [h1, h2, h3, h4, h6, hs, truthy]
      | false => simp [h1, h2, h3, h4, h6, hs, truthy_jsOr _ (.obj []) rfl]
    | false =>
    cases h7 : isString (getField c "message") with
    | true =>
      cases h7' : hasKey c "message" with
      | true => simp [h1, h2, h3, h4, h6, h7, h7', truthy]
      | false =>
        cases h8 : hasKey c "response" with
        | true =>
          have hsz := getField_sizeOf h8
          simpa [h1, h2, h3, h4, h6, h7, h7', h8] using ih (getField c "response") (by omega)
        | false => simp [h1, h2, h3, h4, h6, h7, h7', h8, h1]
    | false =>
      cases h8 : hasKey c "response" with
      | true =>
        have hsz := getField_sizeOf h8
        simpa [h1, h2, h3, h4, h6, h7, h8] using ih (getField c "response") (by omega)
      | false => simp [h1, h2, h3, h4, h6, h7, h8]

/-- Invariants of the normalizer's output: the status is always one of
`"success"`/`"error"`, and the `result` value is always truthy. -/
theorem normalizeResponse_inv (c : JsVal) :
    ((normalizeResponse c).status = "success" ∨ (normalizeResponse c).status = "error") ∧
      truthy (normalizeResponse c).result = true :=
  normalizeResponse_inv_aux (sizeOf c) c le_rfl

theorem statusIsError_aux :
    ∀ n c, sizeOf c ≤ n →
      ((normalizeResponse c).status = "error" ↔ statusIsError c = true) := by
  intro n
  induction n with
  | zero => intro c h; cases c <;> simp at h
  | succ n ih =>
    intro c hc
    rw [normalizeResponse.eq_def, statusIsError.eq_def]
    cases h1 : truthy c with
    | false => simp [h1]
    | true =>
    cases h2 : isString c with
    | true => simp [h1, h2]
    | false =>
    cases h3 : typeofObject c with
    | false => simp [h1, h2, h3]
    | true =>
    cases h4 : hasKey c "status" with
    | true =>
      cases h5 : hasKey c "result" with
      | true =>
        cases he : jsStrictEqStr (getField c "status") "error" with
        | true => simp [h1, h2, h3, h4, h5, he]
        | false => simp [h1, h2, h3, h4, h5, he]
      | false =>
        cases he : jsStrictEqStr (getField c "status") "error" with
        | true => simp [h1, h2, h3, h4, h5, he]
        | false => simp [h1, h2, h3, h4, h5, he]
    | false =>
    cases h6 : hasKey c "result" with
    | true => simp [h1, h2, h3, h4, h6]
    | false =>
    cases h7 : isString (getField c "message") with
    | true =>
      cases h7' : hasKey c "message" with
      | true => simp [h1, h2, h3, h4, h6, h7, h7']
      | false =>
        cases h8 : hasKey c "response" with
        | true =>
          have hsz := getField_sizeOf h8
          simpa [h1, h2, h3, h4, h6, h7, h7', h8] using ih (getField c "response") (by omega)
        | false => simp [h1, h2, h3, h4, h6, h7, h7', h8]
    | false =>
      cases h8 : hasKey c "response" with
      | true =>
        have hsz := getField_sizeOf h8
        simpa [h1, h2, h3, h4, h6, h7, h8] using ih (getField c "response") (by omega)
      | false => simp [h1, h2, h3, h4, h6, h7, h8]

/-- Claim C1 (counterexample): the claim's error condition — candidate
empty/absent or an object carrying `status` literally `"error"` — does not
match the code on `{response: null}`: that object is truthy and carries no
`status` field, yet `normalizeResponse` returns status `"error"` (case 8
recursively normalizes the falsy `response` value). -/
theorem c1_counterexample :
    ¬(((normalizeResponse (.obj [("response", .null)])).status = "error") ↔
        specC1Error (.obj [("response", .null)]) = true) := by
  have h : normalizeResponse (.obj [("response", .null)]) =
      ⟨"error", .obj [], .str "Empty response from agent", .undefined⟩ := by
    rw [normalizeResponse.eq_def]
    rw [normalizeResponse.eq_def]
    rfl
  rw [h]
  intro hiff
  exact absurd (hiff.mp rfl) (by decide)

/-- Claim C1 (amended): `normalizeResponse` is total by construction, and
its status is `"error"` exactly when the candidate is falsy
(empty/absent/zero/false/NaN), or an object whose `status` field is
literally `"error"`, or an object without `status`, `result`, or
string-valued `message` fields whose `response` field recursively
normalizes to error status; every other candidate yields `"success"`. -/
theorem c1_amended (c : JsVal) :
    (normalizeResponse c).status = "error" ↔ statusIsError c = true :=
  statusIsError_aux (sizeOf c) c le_rfl

/-- Claim C6 (counterexample): on the scalar `0`, the code's `!parsed`
falsiness test fires first, so `normalizeResponse 0` is the error record,
not `{status: success, result: {value: 0}, message: "0"}` as the claim
states for `0`, `NaN` and `false`. -/
theorem c6_counterexample :
    (normalizeResponse (.num 0)).status = "error" ∧
      ¬((normalizeResponse (.num 0)).result = .obj [("value", .num 0)] ∧
        (normalizeResponse (.num 0)).message = .str (jsToString (.num 0))) := by
  have h : normalizeResponse (.num 0) =
      ⟨"error", .obj [], .str "Empty response from agent", .undefined⟩ := by
    rw [normalizeResponse.eq_def]; rfl
  rw [h]
  refine ⟨rfl, ?_⟩
  rintro ⟨h1, _⟩
  simp at h1

/-- Claim C6 (amended): for every truthy scalar input (non-object,
non-string, and not one of the falsy scalars `0`, `NaN`, `false`),
`normalizeResponse` returns status `"success"` with `result = {value: input}`
and `message` the stringification of the input. -/
theorem c6_amended (v : JsVal) (h1 : truthy v = true) (h2 : isString v = false)
    (h3 : typeofObject v = false) :
    normalizeResponse v = ⟨"success", .obj [("value", v)], .str (jsToString v), .undefined⟩ := by
  rw [normalizeResponse.eq_def]
  simp [h1, h2, h3]

theorem c6_witness :
    truthy (.num 7) = true ∧ isString (.num 7) = false ∧ typeofObject (.num 7) = false ∧
      normalizeResponse (.num 7) =
        ⟨"success", .obj [("value", .num 7)], .str (jsToString (.num 7)), .undefined⟩ :=
  ⟨rfl, rfl, rfl, c6_amended (.num 7) rfl rfl rfl⟩

theorem normalizeResponse_toJsVal (r : NormResp)
    (hs : r.status = "success" ∨ r.status = "error")
    (ht : truthy r.result = true) :
    normalizeResponse (toJsVal r) = r := by
  obtain ⟨st, res, msg, meta⟩ := r
  simp only at hs ht
  rw [toJsVal, normalizeResponse.eq_def]
  simp [truthy_obj, isString, typeofObject, hasKey, getField, getField?, lookupKey,
        jsStrictEqStr, jsOr, ht]
  rcases hs with h | h <;> simp [h]

/-- Claim C7: normalizing an already-normalized object — `status` in
`{"success","error"}`, object-valued `result`, optional `message` and
`metadata` — reproduces the same record, and normalization is idempotent
on every candidate: `normalize (normalize c) = normalize c`. -/
theorem c7_normalizer_idempotent :
    (∀ st fs msg meta, (st = "success" ∨ st = "error") →
      normalizeResponse (.obj [("status", .str st), ("result", .obj fs),
          ("message", msg), ("metadata", meta)]) = ⟨st, .obj fs, msg, meta⟩) ∧
    (∀ c, normalizeResponse (toJsVal (normalizeResponse c)) = normalizeResponse c) := by
  constructor
  · intro st fs msg meta hs
    exact normalizeResponse_toJsVal ⟨st, .obj fs, msg, meta⟩ hs rfl
  · intro c
    exact normalizeResponse_toJsVal _ (normalizeResponse_inv c).1 (normalizeResponse_inv c).2

theorem c7_witness :
    normalizeResponse (.obj [("status", .str "success"), ("result", .obj []),
        ("message", .undefined), ("metadata", .undefined)]) =
      ⟨"success", .obj [], .undefined, .undefined⟩ :=
  c7_normalizer_idempotent.1 "success" [] .undefined .undefined (Or.inl rfl)

/-! ## Error Classifier (`detectResponseIssue`, agent-fetch-interceptor) -/

/-- The intercepted inference endpoint (`LYZR_API_URL` in the source). -/
def LYZR_API_URL : String := "https://agent-prod.studio.lyzr.ai/v3/inference/chat"

/-- Error record produced by the classifier.  The ambient browser fields
(`timestamp`, `userAgent`, `url`) are environment reads with no logical
content and are omitted from the model. -/
structure IssueRecord where
  type : String
  message : JsVal
  raw_response : JsVal
  endpoint : String

/-- Translation of `detectResponseIssue`: three cases checked in order —
top-level API failure, explicit `_parse_succeeded` flags, and a nested
failed `response` accompanied by a data-bearing `raw_response` (length
above the short threshold 20). -/
def detectResponseIssue (data : JsVal) : Option IssueRecord :=
  -- Case 1: API-level failure
  if jsStrictEqBool (getField data "success") false && truthy (getField data "error") then
    some ⟨"api_error", getField data "error",
          jsOr (getField data "details") (getField data "raw_response"), LYZR_API_URL⟩
  -- Case 2: parse failure indicated by the `_parse_succeeded` flag
  else if jsStrictEqBool (getField data "_parse_succeeded") false &&
      jsStrictEqBool (getField data "_has_valid_data") true then
    some ⟨"parse_error", .str "JSON parsing failed but valid data exists in raw_response",
          getField data "raw_response", LYZR_API_URL⟩
  -- Case 3: nested `response` carries an error while `raw_response` has data
  else if truthy (getField data "response") && typeofObject (getField data "response") then
    if jsStrictEqBool (getField (getField data "response") "success") false &&
        truthy (getField (getField data "response") "error") then
      if truthy (getField data "raw_response") && jsLenGt (getField data "raw_response") 20 then
        some ⟨"parse_error", getField (getField data "response") "error",
              getField data "raw_response", LYZR_API_URL⟩
      else none
    else none
  else none

/-- The claim's api_error condition: top-level `success === false` with a
truthy `error`. -/
def c9CondApi (data : JsVal) : Bool :=
  jsStrictEqBool (getField data "success") false && truthy (getField data "error")

/-- The claim's first parse_error disjunct: `_parse_succeeded === false`
with `_has_valid_data === true`. -/
def c9CondFlag (data : JsVal) : Bool :=
  jsStrictEqBool (getField data "_parse_succeeded") false &&
    jsStrictEqBool (getField data "_has_valid_data") true

/-- The claim's second parse_error disjunct: a nested `response` object
with `success === false` and an error, while `raw_response` exceeds the
short length threshold. -/
def c9CondRaw (data : JsVal) : Bool :=
  (truthy (getField data "response") && typeofObject (getField data "response")) &&
  ((jsStrictEqBool (getField (getField data "response") "success") false &&
      truthy (getField (getField data "response") "error")) &&
   (truthy (getField data "raw_response") && jsLenGt (getField data "raw_response") 20))

/-- Claim C9 (counterexample): on a payload satisfying both the api_error
condition and the `_parse_succeeded` parse condition, the classifier's
ordered dispatch emits `api_error`, so "parse_error exactly when the parse
conditions hold" is false as stated. -/
theorem c9_counterexample :
    ¬(((detectResponseIssue (.obj [("success", .bool false), ("error", .str "boom"),
          ("_parse_succeeded", .bool false), ("_has_valid_data", .bool true)])).map IssueRecord.type
        = some "parse_error") ↔
      (c9CondFlag (.obj [("success", .bool false), ("error", .str "boom"),
          ("_parse_succeeded", .bool false), ("_has_valid_data", .bool true)]) ||
       c9CondRaw (.obj [("success", .bool false), ("error", .str "boom"),
          ("_parse_succeeded", .bool false), ("_has_valid_data", .bool true)])) = true) := by
  decide

/-- Claim C9 (amended): the classifier emits `api_error` exactly on the
api_error condition; it emits `parse_error` exactly when one of the two
parse conditions holds AND the (earlier-checked) api_error condition does
not; otherwise it emits no record. -/
theorem c9_amended (data : JsVal) :
    ((detectResponseIssue data).map IssueRecord.type = some "api_error" ↔
      c9CondApi data = true) ∧
    ((detectResponseIssue data).map IssueRecord.type = some "parse_error" ↔
      (!c9CondApi data && (c9CondFlag data || c9CondRaw data)) = true) ∧
    (detectResponseIssue data = none ↔
      (!c9CondApi data && !c9CondFlag data && !c9CondRaw data) = true) := by
  unfold detectResponseIssue c9CondApi c9CondFlag c9CondRaw
  cases h1 : (jsStrictEqBool (getField data "success") false && truthy (getField data "error")) <;>
  cases h2 : (jsStrictEqBool (getField data "_parse_succeeded") false &&
      jsStrictEqBool (getField data "_has_valid_data") true) <;>
  cases h3 : (truthy (getField data "response") && typeofObject (getField data "response")) <;>
  cases h4 : (jsStrictEqBool (getField (getField data "response") "success") false &&
      truthy (getField (getField data "response") "error")) <;>
  cases h5 : (truthy (getField data "raw_response") && jsLenGt (getField data "raw_response") 20) <;>
  simp [h1, h2, h3, h4, h5]

/-! ## Poll backoff (`callAIAgent`, aiAgent.ts) -/

/-- The per-attempt delay of the client poll loop, in milliseconds:
`Math.min(300 * Math.pow(1.5, attempt), 3000)`. -/
def delay (n : Nat) : ℚ := min (300 * (3 / 2 : ℚ) ^ n) 3000

/-- The whole number of milliseconds `setTimeout` actually waits for a
given attempt (the timeout argument is truncated to an integer). -/
def delayMs (n : Nat) : Nat := ⌊delay n⌋₊

/-- Claim C4: the delay sequence starts sub-second (300 ms), is
non-decreasing, reaches the 3000 ms cap (at attempt 6), and never exceeds
the cap. -/
theorem c4_backoff_monotone :
    delay 0 < 1000 ∧ (∀ n, delay n ≤ delay (n + 1)) ∧ (∀ n, delay n ≤ 3000) ∧
      delay 6 = 3000 := by
  refine ⟨by norm_num [delay], ?_, fun n => min_le_right _ _, by norm_num [delay]⟩
  intro n
  unfold delay
  apply min_le_min _ le_rfl
  have h := pow_le_pow_right₀ (by norm_num : (1 : ℚ) ≤ 3 / 2) (show n ≤ n + 1 by omega)
  linarith

/-- Every per-attempt sleep is at least 300 ms; this bounds the number of
loop iterations and is what makes the poll loop terminate. -/
theorem delayMs_ge (n : Nat) : 300 ≤ delayMs n := by
  have h : (300 : ℚ) ≤ delay n := by
    unfold delay
    apply le_min
    · have h1 : (1 : ℚ) ≤ (3 / 2) ^ n := one_le_pow₀ (by norm_num)
      nlinarith
    · norm_num
  exact Nat.le_floor (by exact_mod_cast h)

/-! ## Task Client (`callAIAgent`, aiAgent.ts)

The client submits a task through `fetchWrapper('/api/agent', ...)` and
then polls until completion.  Each network step (one `fetchWrapper` call
plus the following `.json()`) is abstracted by a `StepResult` supplied by
the environment: `exn` models the step throwing (the source's single
`try/catch` captures both transport exceptions and malformed-reply
`.json()` failures), `missing` models `fetchWrapper` resolving to
`undefined`, and `val` models a delivered parsed body. -/

/-- `POLL_TIMEOUT_MS = 5 * 60 * 1000` (5 minutes). -/
def POLL_TIMEOUT_MS : Nat := 5 * 60 * 1000

/-- Outcome of one network step of the client.  `exn (some m)` is a thrown
`Error` with message `m`; `exn none` is a thrown non-`Error` value. -/
inductive StepResult where
  | exn (msg : Option String)
  | missing
  | val (v : JsVal)

/-- Environment of one `callAIAgent` execution: the submit step's outcome,
the outcome of the k-th poll request, and the extra wall-clock milliseconds
the k-th poll request (network + json) consumes beyond the sleep. -/
structure ClientEnv where
  submit : StepResult
  poll : Nat → StepResult
  pollExtra : Nat → Nat

/-- The failure value `{success: false, response: {status: 'error',
result: {}, message: msg}, error: msg}` that every terminal failure branch
of `callAIAgent` builds. -/
def errorShape (msg : String) : JsVal :=
  .obj [("success", .bool false),
        ("response", .obj [("status", .str "error"), ("result", .obj []),
           ("message", .str msg)]),
        ("error", .str msg)]

/-- The value built by the outer `catch`: message taken from the exception
when it is an `Error`, else the fixed `'Network error'`. -/
def catchResp (m : Option String) : JsVal := errorShape (m.getD "Network error")

/-- Returned when `fetchWrapper` resolves to `undefined` on submit. -/
def noServerResp : JsVal := errorShape "No response from server"

/-- Returned when the submit reply has no (truthy) `task_id` and does not
itself carry `success === false`. -/
def noTaskIdResp : JsVal := errorShape "No task_id in response"

/-- Returned when the poll loop's wall-clock ceiling elapses. -/
def timeoutResp : JsVal := errorShape "Agent task timed out after 5 minutes"

/-- Setting one key of a field list, JS-object style: an existing key is
overwritten in place, a new key is appended. -/
def setEntry (fs : List (String × JsVal)) (k : String) (v : JsVal) : List (String × JsVal) :=
  if fs.any (fun p => p.1 = k) then
    fs.map (fun p => if p.1 = k then (k, v) else p)
  else fs ++ [(k, v)]

/-- Own enumerable entries of a value, as object spread sees them
(objects: their fields; arrays and strings: index keys; other primitives:
nothing). -/
def ownEntries : JsVal → List (String × JsVal)
  | .obj fs => fs
  | .arr xs => xs.enum.map (fun p => (toString p.1, p.2))
  | .str s => s.data.enum.map (fun p => (toString p.1, .str (String.singleton p.2)))
  | _ => []

/-- The object literal `{...base, k1: v1, ..., kn: vn}`. -/
def jsSpread (base : JsVal) (extra : List (String × JsVal)) : JsVal :=
  .obj (extra.foldl (fun fs p => setEntry fs p.1 p.2) (ownEntries base))

/-- Observable outcome of the poll loop: the value it returns, the number
of poll requests it issued, and the wall-clock elapsed time (ms since the
loop started) at the moment it returned. -/
structure LoopResult where
  value : JsVal
  polls : Nat
  finalElapsed : Nat

/-- Does this step deliver a body whose `status` is `'processing'`? -/
def isProcessingStep : StepResult → Bool
  | .val v => jsStrictEqStr (getField v "status") "processing"
  | _ => false

/-- Translation of the `while (Date.now() - startTime < POLL_TIMEOUT_MS)`
poll loop of `callAIAgent`.  The elapsed-time check happens at the top of
each iteration, before the sleep; iteration `k` sleeps `delayMs k` (the
attempt counter is incremented once per iteration) and then issues exactly
one poll request.  A thrown step escapes to the outer catch; a `missing`
step (`fetchWrapper` returned undefined) and a `processing` body both
continue; any other delivered body is returned with
`agent_id`/`user_id`/`session_id` spread onto it. -/
def pollLoop (env : ClientEnv) (agent_id : String) (uid sid : JsVal)
    (elapsed k : Nat) : LoopResult :=
  if _h : elapsed < POLL_TIMEOUT_MS then
    let elapsed' := elapsed + delayMs k + env.pollExtra k
    match env.poll k with
    | .exn m => ⟨catchResp m, 1, elapsed'⟩
    | .missing =>
        let r := pollLoop env agent_id uid sid elapsed' (k + 1)
        ⟨r.value, r.polls + 1, r.finalElapsed⟩
    | .val pollData =>
        if jsStrictEqStr (getField pollData "status") "processing" then
          let r := pollLoop env agent_id uid sid elapsed' (k + 1)
          ⟨r.value, r.polls + 1, r.finalElapsed⟩
        else
          ⟨jsSpread pollData [("agent_id", .str agent_id), ("user_id", uid),
             ("session_id", sid)], 1, elapsed'⟩
  else ⟨timeoutResp, 0, elapsed⟩
termination_by POLL_TIMEOUT_MS - elapsed
decreasing_by
  all_goals have h300 := delayMs_ge k
  all_goals omega

/-- Translation of `callAIAgent`: submit, guard on `task_id`, then poll.
The returned pair is the `AIAgentResponse` value and the total number of
poll requests issued. -/
def callAIAgent (message agent_id : String) (env : ClientEnv) : JsVal × Nat :=
  match env.submit with
  | .exn m => (catchResp m, 0)
  | .missing => (noServerResp, 0)
  | .val submitData =>
      if truthy (getField submitData "task_id") = false then
        (if jsStrictEqBool (getField submitData "success") false then submitData
         else noTaskIdResp, 0)
      else
        let r := pollLoop env agent_id (getField submitData "user_id")
                   (getField submitData "session_id") 0 0
        (r.value, r.polls)

theorem getField_of_not_hasKey {v : JsVal} {k : String} (h : hasKey v k = false) :
    getField v k = .undefined := by
  unfold hasKey at h
  unfold getField
  cases hgf : getField? v k with
  | none => rfl
  | some w => rw [hgf] at h; simp at h

/-- Claim C2: every terminal failure of the Task Client is returned as
data.  If the submit step throws, `callAIAgent` returns the catch-shaped
value; if any reachable poll step throws, the loop returns the same
catch-shaped value (and issues no further polls); the message is the
exception's message, or `'Network error'` for non-`Error` throws. -/
theorem c2_failures_returned_as_data :
    (∀ message agent_id env m, env.submit = .exn m →
      (callAIAgent message agent_id env).1 =
        .obj [("success", .bool false),
              ("response", .obj [("status", .str "error"), ("result", .obj []),
                 ("message", .str (m.getD "Network error"))]),
              ("error", .str (m.getD "Network error"))]) ∧
    (∀ env agent_id uid sid elapsed k m, elapsed < POLL_TIMEOUT_MS →
      env.poll k = .exn m →
      (pollLoop env agent_id uid sid elapsed k).value =
        .obj [("success", .bool false),
              ("response", .obj [("status", .str "error"), ("result", .obj []),
                 ("message", .str (m.getD "Network error"))]),
              ("error", .str (m.getD "Network error"))] ∧
      (pollLoop env agent_id uid sid elapsed k).polls = 1) := by
  constructor
  · intro message agent_id env m hsub
    unfold callAIAgent
    rw [hsub]
    rfl
  · intro env agent_id uid sid elapsed k m he hp
    rw [pollLoop.eq_def]
    simp [he, hp, catchResp, errorShape]

theorem c2_witness :
    (callAIAgent "hi" "A1" ⟨.exn (some "socket hang up"), fun _ => .missing, fun _ => 0⟩).1 =
      .obj [("success", .bool false),
            ("response", .obj [("status", .str "error"), ("result", .obj []),
               ("message", .str "socket hang up")]),
            ("error", .str "socket hang up")] ∧
    (pollLoop ⟨.missing, fun _ => .exn none, fun _ => 0⟩ "A1" .undefined .undefined 0 0).value =
      .obj [("success", .bool false),
            ("response", .obj [("status", .str "error"), ("result", .obj []),
               ("message", .str "Network error")]),
            ("error", .str "Network error")] ∧
    (pollLoop ⟨.missing, fun _ => .exn none, fun _ => 0⟩ "A1" .undefined .undefined 0 0).polls = 1 := by
  refine ⟨c2_failures_returned_as_data.1 "hi" "A1" _ (some "socket hang up") rfl, ?_, ?_⟩
  · exact (c2_failures_returned_as_data.2 _ "A1" .undefined .undefined 0 0 none (by norm_num [POLL_TIMEOUT_MS]) rfl).1
  · exact (c2_failures_returned_as_data.2 _ "A1" .undefined .undefined 0 0 none (by norm_num [POLL_TIMEOUT_MS]) rfl).2

theorem c3_aux :
    ∀ fuel env agent_id uid sid elapsed k, POLL_TIMEOUT_MS - elapsed ≤ fuel →
      (∀ j, isProcessingStep (env.poll j) = true) →
      (pollLoop env agent_id uid sid elapsed k).value = timeoutResp ∧
      POLL_TIMEOUT_MS ≤ (pollLoop env agent_id uid sid elapsed k).finalElapsed ∧
      (POLL_TIMEOUT_MS ≤ elapsed → (pollLoop env agent_id uid sid elapsed k).polls = 0) := by
  intro fuel
  induction fuel with
  | zero =>
    intro env agent_id uid sid elapsed k hf hall
    have he : ¬elapsed < POLL_TIMEOUT_MS := by omega
    rw [pollLoop.eq_def]
    simp [he]
    omega
  | succ n ih =>
    intro env agent_id uid sid elapsed k hf hall
    by_cases he : elapsed < POLL_TIMEOUT_MS
    · rw [pollLoop.eq_def]
      have hk := hall k
      cases hp : env.poll k with
      | exn m => rw [hp] at hk; simp [isProcessingStep] at hk
      | missing => rw [hp] at hk; simp [isProcessingStep] at hk
      | val v =>
        rw [hp] at hk
        simp only [isProcessingStep] at hk
        have hd := delayMs_ge k
        have hrec := ih env agent_id uid sid (elapsed + delayMs k + env.pollExtra k) (k + 1)
          (by omega) hall
        simp only [dif_pos he, hp, hk, if_pos]
        exact ⟨hrec.1, hrec.2.1, fun hge => absurd he (by omega)⟩
    · rw [pollLoop.eq_def]
      simp [he]
      omega

/-- Claim C3: if every poll reply reports `'processing'`, the loop (from
any reachable state, for any attempt count) returns the timeout failure
with message `'Agent task timed out after 5 minutes'`; the wall-clock
elapsed time at exit is at least `POLL_TIMEOUT_MS`; and once the elapsed
time has reached the ceiling no poll request at all is issued (the check
against the ceiling happens before each sleep). -/
theorem c3_timeout_enforcement (env : ClientEnv) (agent_id : String) (uid sid : JsVal)
    (elapsed k : Nat) (hall : ∀ j, isProcessingStep (env.poll j) = true) :
    (pollLoop env agent_id uid sid elapsed k).value = timeoutResp ∧
    POLL_TIMEOUT_MS ≤ (pollLoop env agent_id uid sid elapsed k).finalElapsed ∧
    (POLL_TIMEOUT_MS ≤ elapsed → (pollLoop env agent_id uid sid elapsed k).polls = 0) :=
  c3_aux (POLL_TIMEOUT_MS - elapsed) env agent_id uid sid elapsed k le_rfl hall

/-- An environment whose backend always reports `processing`. -/
def procEnvC3 : ClientEnv :=
  ⟨.missing, fun _ => .val (.obj [("status", .str "processing")]), fun _ => 0⟩

theorem c3_witness :
    (pollLoop procEnvC3 "agent" .undefined .undefined 0 0).value = timeoutResp ∧
    POLL_TIMEOUT_MS ≤ (pollLoop procEnvC3 "agent" .undefined .undefined 0 0).finalElapsed ∧
    (POLL_TIMEOUT_MS ≤ 0 → (pollLoop procEnvC3 "agent" .undefined .undefined 0 0).polls = 0) :=
  c3_timeout_enforcement procEnvC3 "agent" .undefined .undefined 0 0 (fun _ => rfl)

/-- Claim C10: when the submit reply parses but has no `task_id` field,
`callAIAgent` issues no poll request; a reply carrying `success === false`
is returned verbatim, any other reply yields the `'No task_id in
response'` failure. -/
theorem c10_missing_task_id (message agent_id : String) (env : ClientEnv) (d : JsVal)
    (hs : env.submit = .val d) (hk : hasKey d "task_id" = false) :
    (callAIAgent message agent_id env).2 = 0 ∧
    (jsStrictEqBool (getField d "success") false = true →
      (callAIAgent message agent_id env).1 = d) ∧
    (jsStrictEqBool (getField d "success") false = false →
      (callAIAgent message agent_id env).1 =
        .obj [("success", .bool false),
              ("response", .obj [("status", .str "error"), ("result", .obj []),
                 ("message", .str "No task_id in response")]),
              ("error", .str "No task_id in response")]) := by
  unfold callAIAgent
  rw [hs]
  dsimp only
  rw [getField_of_not_hasKey hk]
  refine ⟨rfl, ?_, ?_⟩
  · intro h; simp [h, truthy]
  · intro h; simp [h, truthy, noTaskIdResp, errorShape]

theorem c10_witness :
    (callAIAgent "hi" "A1" ⟨.val (.obj [("success", .bool false)]), fun _ => .missing, fun _ => 0⟩).2 = 0 ∧
    (callAIAgent "hi" "A1" ⟨.val (.obj [("success", .bool false)]), fun _ => .missing, fun _ => 0⟩).1 =
      .obj [("success", .bool false)] ∧
    (callAIAgent "hi" "A1" ⟨.val (.obj []), fun _ => .missing, fun _ => 0⟩).1 =
      .obj [("success", .bool false),
            ("response", .obj [("status", .str "error"), ("result", .obj []),
               ("message", .str "No task_id in response")]),
            ("error", .str "No task_id in response")] := by
  refine ⟨(c10_missing_task_id "hi" "A1"
            ⟨.val (.obj [("success", .bool false)]), fun _ => .missing, fun _ => 0⟩
            (.obj [("success", .bool false)]) rfl (by decide)).1,
          (c10_missing_task_id "hi" "A1"
            ⟨.val (.obj [("success", .bool false)]), fun _ => .missing, fun _ => 0⟩
            (.obj [("success", .bool false)]) rfl (by decide)).2.1 (by decide),
          (c10_missing_task_id "hi" "A1"
            ⟨.val (.obj []), fun _ => .missing, fun _ => 0⟩
            (.obj []) rfl (by decide)).2.2 (by decide)⟩

/-! ## Server route handlers (`submitTask` / `pollTask`, route (4).ts)

Both handlers return `Except`: `.error` is an exception escaping the
handler (the route's outer `try/catch` then produces a 500 — not needed by
any claim).  The `.ok` payload is the JSON body of the `NextResponse`
together with its HTTP status; for `submitTask` additionally the payload
POSTed to the Lyzr backend (`none` = the backend was never contacted). -/

/-- A reply delivered by `fetch` to the Lyzr backend: the `Response`'s
`ok` flag and HTTP status, its body text, and the result of `.json()`
(`.error` = the json parse threw). -/
structure LyzrReply where
  ok : Bool
  status : Nat
  text : String
  json : Except (Option String) JsVal

/-- Environment of one `submitTask` invocation: the fetch outcome
(`.error` = the fetch itself rejected), the two `generateUUID()` draws,
and oracles for the built-in `JSON.parse` and the external `parseLLMJson`
applied to the error body text (`none` = that call threw, which the
source swallows). -/
structure SubmitEnv where
  fetch : Except (Option String) LyzrReply
  uuid1 : String
  uuid2 : String
  jsonParse : String → Option JsVal
  parseLLMStr : String → Option JsVal

/-- The 400 body returned when `message` or `agent_id` is missing/empty. -/
def submitValidationFail : JsVal :=
  .obj [("success", .bool false),
        ("response", .obj [("status", .str "error"), ("result", .obj []),
           ("message", .str "message and agent_id are required")]),
        ("error", .str "message and agent_id are required")]

/-- Translation of `submitTask`: validate, generate default ids, build the
payload, POST to Lyzr, and shape the reply.  The result triple is
(response body, HTTP status, payload sent to the Lyzr backend or `none`). -/
def submitTask (body : JsVal) (env : SubmitEnv) :
    Except (Option String) (JsVal × Nat × Option JsVal) :=
  let message := getField body "message"
  let agent_id := getField body "agent_id"
  let user_id := getField body "user_id"
  let session_id := getField body "session_id"
  let assets := getField body "assets"
  -- `if (!message || !agent_id)`
  if truthy message = false || truthy agent_id = false then
    .ok (submitValidationFail, 400, none)
  else
    let finalUserId := jsOr user_id (.str ("user-" ++ env.uuid1))
    let finalSessionId :=
      jsOr session_id (.str (jsToString agent_id ++ "-" ++ env.uuid2.take 12))
    let basePayload := [("message", message), ("agent_id", agent_id),
                        ("user_id", finalUserId), ("session_id", finalSessionId)]
    -- `if (assets && assets.length > 0) payload.assets = assets`
    let payload : JsVal :=
      if truthy assets && jsLenGt assets 0 then .obj (basePayload ++ [("assets", assets)])
      else .obj basePayload
    match env.fetch with
    | .error e => .error e
    | .ok reply =>
      if reply.ok = false then
        let fallbackMsg : JsVal :=
          .str ("Task submit failed with status " ++ toString reply.status)
        -- JSON.parse first, parseLLMJson second, default message last
        let errorMsg :=
          match env.jsonParse reply.text with
          | some errorData =>
              jsOr (getField errorData "detail")
                (jsOr (getField errorData "error")
                  (jsOr (getField errorData "message") fallbackMsg))
          | none =>
              match env.parseLLMStr reply.text with
              | some errorData =>
                  jsOr (getField errorData "error")
                    (jsOr (getField errorData "message") fallbackMsg)
              | none => fallbackMsg
        .ok (.obj [("success", .bool false),
                   ("response", .obj [("status", .str "error"), ("result", .obj []),
                      ("message", errorMsg)]),
                   ("error", errorMsg),
                   ("raw_response", .str reply.text)], reply.status, some payload)
      else
        match reply.json with
        | .error e => .error e
        | .ok j =>
            .ok (.obj [("task_id", getField j "task_id"), ("agent_id", agent_id),
                       ("user_id", finalUserId), ("session_id", finalSessionId)],
                 200, some payload)

/-- Claim C5: a submit whose `message` or `agent_id` is missing or empty
returns the `'message and agent_id are required'` validation failure with
HTTP 400 and never contacts the inference backend (the only outbound
request of the handler); moreover a client whose submit step delivers that
failure body hands it to the caller verbatim with zero poll requests. -/
theorem c5_submit_validation (body : JsVal) (env : SubmitEnv)
    (h : hasKey body "message" = false ∨ getField body "message" = .str "" ∨
         hasKey body "agent_id" = false ∨ getField body "agent_id" = .str "") :
    submitTask body env = .ok (submitValidationFail, 400, none) ∧
    (∀ cenv : ClientEnv, cenv.submit = .val submitValidationFail →
      ∀ message agent_id, callAIAgent message agent_id cenv = (submitValidationFail, 0)) := by
  constructor
  · have hm : truthy (getField body "message") = false ∨
        truthy (getField body "agent_id") = false := by
      rcases h with h | h | h | h
      · exact Or.inl (by rw [getField_of_not_hasKey h]; rfl)
      · exact Or.inl (by rw [h]; rfl)
      · exact Or.inr (by rw [getField_of_not_hasKey h]; rfl)
      · exact Or.inr (by rw [h]; rfl)
    rcases hm with hm | hm <;> simp [submitTask, hm]
  · intro cenv hsub message agent_id
    unfold callAIAgent
    rw [hsub]
    rfl

/-- A submit environment that would fail loudly were the backend ever
contacted. -/
def envC5 : SubmitEnv := ⟨.error none, "u", "s", fun _ => none, fun _ => none⟩

theorem c5_witness :
    submitTask (.obj [("agent_id", .str "A1")]) envC5 = .ok (submitValidationFail, 400, none) ∧
    callAIAgent "" "A1" ⟨.val submitValidationFail, fun _ => .missing, fun _ => 0⟩ =
      (submitValidationFail, 0) := by
  have h := c5_submit_validation (.obj [("agent_id", .str "A1")]) envC5 (Or.inl (by decide))
  exact ⟨h.1, h.2 _ rfl "" "A1"⟩

/-- Environment of one `pollTask` invocation: the fetch outcome plus
oracles for `JSON.stringify`, `JSON.parse`, the external `parseLLMJson`
(on arbitrary values; `.error` = it threw), and the timestamp. -/
structure PollSrvEnv where
  fetch : Except (Option String) LyzrReply
  stringify : JsVal → String
  jsonParse : String → Option JsVal
  parseLLM : JsVal → Except (Option String) JsVal
  nowIso : String

/-- Translation of `pollTask`: single proxied GET; non-2xx replies become
a `failed` body (404 getting its dedicated message), `processing` and
`failed` task states are passed through, and a completed task goes through
envelope extraction, `parseLLMJson`, and `normalizeResponse`. -/
def pollTask (task_id : String) (env : PollSrvEnv) :
    Except (Option String) (JsVal × Nat) :=
  match env.fetch with
  | .error e => .error e
  | .ok reply =>
    if reply.ok = false then
      let msg := if reply.status = 404 then "Task expired or not found"
                 else "Poll failed with status " ++ toString reply.status
      .ok (.obj [("success", .bool false), ("status", .str "failed"),
                 ("error", .str msg), ("raw_response", .str reply.text)], reply.status)
    else
      match reply.json with
      | .error e => .error e
      | .ok task =>
        if jsStrictEqStr (getField task "status") "processing" then
          .ok (.obj [("status", .str "processing")], 200)
        else if jsStrictEqStr (getField task "status") "failed" then
          let errMsg := jsOr (getField task "error") (.str "Agent task failed")
          .ok (.obj [("success", .bool false), ("status", .str "failed"),
                     ("response", .obj [("status", .str "error"), ("result", .obj []),
                        ("message", errMsg)]),
                     ("error", errMsg)], 500)
        else
          let rawText := env.stringify (getField task "response")
          -- `JSON.parse(rawText)` and the envelope test
          let unwrapped :=
            match env.jsonParse rawText with
            | some envl =>
                if truthy envl && typeofObject envl && hasKey envl "response" then
                  (getField envl "module_outputs", getField envl "response")
                else (JsVal.undefined, JsVal.str rawText)
            | none => (JsVal.undefined, JsVal.str rawText)
          match env.parseLLM unwrapped.2 with
          | .error e => .error e
          | .ok parsed =>
            -- fall back to the raw value when the loose parse reports
            -- `{success: false, data: null}`
            let toNormalize :=
              if truthy parsed && typeofObject parsed &&
                  jsStrictEqBool (getField parsed "success") false &&
                  jsStrictNull (getField parsed "data") then
                unwrapped.2
              else parsed
            .ok (.obj [("success", .bool true), ("status", .str "completed"),
                       ("response", toJsVal (normalizeResponse toNormalize)),
                       ("module_outputs", unwrapped.1),
                       ("timestamp", .str env.nowIso),
                       ("raw_response", .str rawText)], 200)

/-- Claim C8: a 404 on poll is a terminal, non-retryable failure distinct
from other non-2xx statuses — `pollTask` maps it to a `failed` body with
the dedicated message `'Task expired or not found'` (other non-2xx
statuses get `'Poll failed with status N'`), and a client poll loop whose
current poll delivers a `failed` body returns it to the caller with ids
attached and issues exactly that one poll request, none after. -/
theorem c8_poll_404 :
    (∀ task_id env reply, env.fetch = .ok reply → reply.ok = false → reply.status = 404 →
      pollTask task_id env =
        .ok (.obj [("success", .bool false), ("status", .str "failed"),
              ("error", .str "Task expired or not found"),
              ("raw_response", .str reply.text)], 404)) ∧
    (∀ task_id env reply, env.fetch = .ok reply → reply.ok = false → reply.status ≠ 404 →
      pollTask task_id env =
        .ok (.obj [("success", .bool false), ("status", .str "failed"),
              ("error", .str ("Poll failed with status " ++ toString reply.status)),
              ("raw_response", .str reply.text)], reply.status)) ∧
    (∀ cenv agent_id uid sid elapsed k body, elapsed < POLL_TIMEOUT_MS →
      ClientEnv.poll cenv k = .val body → getField body "status" = .str "failed" →
      (pollLoop cenv agent_id uid sid elapsed k).value =
        jsSpread body [("agent_id", .str agent_id), ("user_id", uid), ("session_id", sid)] ∧
      (pollLoop cenv agent_id uid sid elapsed k).polls = 1) := by
  refine ⟨?_, ?_, ?_⟩
  · intro task_id env reply hf hok hst
    unfold pollTask
    rw [hf]
    dsimp only
    rw [hok]
    simp [hst]
  · intro task_id env reply hf hok hst
    unfold pollTask
    rw [hf]
    dsimp only
    rw [hok]
    simp [hst]
  · intro cenv agent_id uid sid elapsed k body he hp hb
    rw [pollLoop.eq_def]
    simp [he, hp, hb, jsStrictEqStr]

/-- The body `pollTask` produces for an expired handle. -/
def body404 : JsVal :=
  .obj [("success", .bool false), ("status", .str "failed"),
        ("error", .str "Task expired or not found"), ("raw_response", .str "gone")]

theorem c8_witness :
    pollTask "T1" ⟨.ok ⟨false, 404, "gone", .error none⟩, fun _ => "", fun _ => none,
        fun _ => .error none, ""⟩ =
      .ok (.obj [("success", .bool false), ("status", .str "failed"),
            ("error", .str "Task expired or not found"),
            ("raw_response", .str "gone")], 404) ∧
    pollTask "T1" ⟨.ok ⟨false, 500, "oops", .error none⟩, fun _ => "", fun _ => none,
        fun _ => .error none, ""⟩ =
      .ok (.obj [("success", .bool false), ("status", .str "failed"),
            ("error", .str ("Poll failed with status " ++ toString 500)),
            ("raw_response", .str "oops")], 500) ∧
    (pollLoop ⟨.missing, fun _ => .val body404, fun _ => 0⟩ "A1" .undefined .undefined 0 0).value =
      jsSpread body404 [("agent_id", .str "A1"), ("user_id", .undefined),
        ("session_id", .undefined)] ∧
    (pollLoop ⟨.missing, fun _ => .val body404, fun _ => 0⟩ "A1" .undefined .undefined 0 0).polls = 1 := by
  refine ⟨c8_poll_404.1 "T1" _ ⟨false, 404, "gone", .error none⟩ rfl rfl rfl,
          c8_poll_404.2.1 "T1" _ ⟨false, 500, "oops", .error none⟩ rfl rfl (by norm_num),
          (c8_poll_404.2.2 _ "A1" .undefined .undefined 0 0 body404
            (by norm_num [POLL_TIMEOUT_MS]) rfl rfl).1,
          (c8_poll_404.2.2 _ "A1" .undefined .undefined 0 0 body404
            (by norm_num [POLL_TIMEOUT_MS]) rfl rfl).2⟩

end JobAgent
